import Mathlib

/-!
Verification of the aetherlens request-admission layer.

Shallow embedding of the admission layer of the aetherlens service:
the in-memory sliding-window rate limiter (src/aetherlens/api/rate_limit.py),
the JWT token manager (src/aetherlens/security/jwt.py), identity resolution
(src/aetherlens/api/dependencies.py), the middleware pipeline assembled in
create_app (src/aetherlens/api/main.py) together with the Prometheus metrics
middleware (src/aetherlens/api/metrics.py) and the request-logging middleware
(src/aetherlens/api/logging.py), and the login route
(src/aetherlens/api/routes/auth.py).

Timestamps (Python time.time and datetime values) are modelled as integers (only order and offset arithmetic on the clock is ever used).
Python dicts that are only read and updated by key are modelled as functions
from keys to optional values.
-/

namespace AetherLens

/-! ## InMemoryRateLimiter (src/aetherlens/api/rate_limit.py) -/

/-- The mutable map client key to timestamp list held by InMemoryRateLimiter
(a defaultdict of lists, so an absent key reads as the empty list). -/
def RateState : Type := String → List ℤ

/-- InMemoryRateLimiter.is_allowed.  On each call it first writes back the
pruned timestamp list for the key (timestamps strictly newer than
now - window_seconds survive), then, when the remaining count is below
max_requests, appends now and reports the decision.  Returns the pair
(allowed, remaining) together with the limiter state after the call. -/
def is_allowed (requests : RateState) (key : String) (max_requests : ℕ)
    (window_seconds now : ℤ) : (Bool × ℤ) × RateState :=
  let window_start := now - window_seconds
  let pruned := (requests key).filter (fun t => window_start < t)
  let current_count := pruned.length
  if current_count < max_requests then
    ((true, (max_requests : ℤ) - current_count - 1),
      fun k => if k = key then pruned ++ [now] else requests k)
  else
    ((false, 0), fun k => if k = key then pruned else requests k)

/-- Repeatedly call is_allowed for one key, one call per element of times
(each element is the clock reading of that call).  Returns the final limiter
state and the list of (allowed, remaining) results in call order. -/
def run_calls (requests : RateState) (key : String) (max_requests : ℕ)
    (window_seconds : ℤ) : List ℤ → RateState × List (Bool × ℤ)
  | [] => (requests, [])
  | t :: ts =>
    let r := is_allowed requests key max_requests window_seconds t
    let rest := run_calls r.2 key max_requests window_seconds ts
    (rest.1, r.1 :: rest.2)

/-- Expected per-call results of the sliding-window limiter: base is the number
of timestamps already recorded, the second argument the number of calls left.
An admitted call raises the recorded count by one, a rejected call leaves it
unchanged. -/
def expected_results (max_requests : ℕ) : ℕ → ℕ → List (Bool × ℤ)
  | _, 0 => []
  | base, n + 1 =>
    if base < max_requests then
      ((true : Bool), (max_requests : ℤ) - base - 1) ::
        expected_results max_requests (base + 1) n
    else
      ((false : Bool), 0) :: expected_results max_requests base n

/-! ## JSON web tokens (src/aetherlens/security/jwt.py)

The payload of a token is a JSON object read and written by key, modelled as a
partial map. -/

/-- A JSON scalar appearing in a token payload or a response body.  Datetime
values are serialised as numeric timestamps. -/
inductive ClaimValue
  | str (s : String)
  | num (q : ℤ)
  deriving DecidableEq

/-- A JSON object accessed by key (a Python dict). -/
def ClaimSet : Type := String → Option ClaimValue

/-- The empty JSON object. -/
def emptyClaims : ClaimSet := fun _ => none

/-- Python dict update of a single key. -/
def ClaimSet.set (d : ClaimSet) (k : String) (v : ClaimValue) : ClaimSet :=
  fun q => if q = k then some v else d q

/-- Modelled from the spec (section 6, token wire format): a token of the
external JSON-signing library is a three-part signed structure carrying a
payload, the secret and algorithm it was signed with, a flag recording whether
the three-part structure parses, and a flag recording whether the signature
bytes are untampered. -/
structure Jwt where
  payload : ClaimSet
  signedWith : String
  alg : String
  wellFormed : Bool
  intact : Bool

/-- Modelled from the spec: the failure modes of the external library decode
call caught by JWTManager.decode_token - an expired-signature failure and the
generic validation failure. -/
inductive JwtLibError
  | expiredSignature
  | jwtError
  deriving DecidableEq

/-- Modelled from the spec: library encode signs the payload with the given
secret and algorithm, producing a well-formed untampered token. -/
def jwt_encode (payload : ClaimSet) (secret algorithm : String) : Jwt :=
  { payload := payload, signedWith := secret, alg := algorithm,
    wellFormed := true, intact := true }

/-- Modelled from the spec: library decode first rejects a malformed or
tampered token or a secret or algorithm mismatch, then checks the exp claim
against the clock (a token is expired when now is strictly past exp) and
rejects a non-numeric exp, and otherwise returns the payload. -/
def jwt_decode (t : Jwt) (secret : String) (algorithms : List String)
    (now : ℤ) : Except JwtLibError ClaimSet :=
  if t.wellFormed = false then .error .jwtError
  else if t.intact = false then .error .jwtError
  else if t.signedWith ≠ secret then .error .jwtError
  else if ¬ t.alg ∈ algorithms then .error .jwtError
  else
    match t.payload "exp" with
    | some (.num e) => if e < now then .error .expiredSignature else .ok t.payload
    | some (.str _) => .error .jwtError
    | none => .ok t.payload

/-- An HTTPException value as raised by the admission layer: status code,
detail text and the optional WWW-Authenticate response header. -/
structure HTTPError where
  status_code : ℕ
  detail : String
  wwwAuthenticate : Option String
  deriving DecidableEq

/-- JWTManager.create_access_token.  expire_minutes is the configured
jwt_access_token_expire_minutes used when no explicit expires_delta (in
seconds) is supplied; now is the clock reading (datetime.utcnow). -/
def create_access_token (data : ClaimSet) (expires_delta : Option ℤ)
    (expire_minutes : ℤ) (secret_key algorithm : String) (now : ℤ) : Jwt :=
  let d := expires_delta.getD (expire_minutes * 60)
  let expire := now + d
  jwt_encode
    (((data.set "exp" (.num expire)).set "iat" (.num now)).set "type" (.str "access"))
    secret_key algorithm

/-- JWTManager.create_refresh_token, with refresh_days the configured
jwt_refresh_token_expire_days. -/
def create_refresh_token (data : ClaimSet) (expires_delta : Option ℤ)
    (refresh_days : ℤ) (secret_key algorithm : String) (now : ℤ) : Jwt :=
  let d := expires_delta.getD (refresh_days * 86400)
  let expire := now + d
  jwt_encode
    (((data.set "exp" (.num expire)).set "iat" (.num now)).set "type" (.str "refresh"))
    secret_key algorithm

/-- JWTManager.decode_token: decodes with the process secret and the single
configured algorithm, mapping an expired-signature failure to 401 with detail
"Token has expired" and any other library failure to 401 with detail
"Could not validate credentials", both with WWW-Authenticate Bearer. -/
def decode_token (token : Jwt) (secret_key algorithm : String) (now : ℤ) :
    Except HTTPError ClaimSet :=
  match jwt_decode token secret_key [algorithm] now with
  | .ok p => .ok p
  | .error .expiredSignature =>
    .error { status_code := 401, detail := "Token has expired",
             wwwAuthenticate := some "Bearer" }
  | .error .jwtError =>
    .error { status_code := 401, detail := "Could not validate credentials",
             wwwAuthenticate := some "Bearer" }

/-! ## Identity resolution (src/aetherlens/api/dependencies.py) -/

/-- A row of the users table as selected by get_current_user. -/
structure UserRow where
  user_id : String
  username : String
  email : String
  role : String
  deriving DecidableEq

/-- get_current_user: decode the bearer token, extract the sub claim (401 with
detail "Invalid authentication credentials" when absent), then look the caller
up in the external store (401 with detail "User not found" when no record
exists).  The store is the users table keyed by user_id. -/
def get_current_user (token : Jwt) (secret_key algorithm : String) (now : ℤ)
    (store : ClaimValue → Option UserRow) : Except HTTPError UserRow :=
  match decode_token token secret_key algorithm now with
  | .error e => .error e
  | .ok payload =>
    match payload "sub" with
    | none =>
      .error { status_code := 401, detail := "Invalid authentication credentials",
               wwwAuthenticate := some "Bearer" }
    | some user_id =>
      match store user_id with
      | none =>
        .error { status_code := 401, detail := "User not found",
                 wwwAuthenticate := some "Bearer" }
      | some user => .ok user

/-- The status code of a failed identity resolution, if it failed. -/
def errStatus (r : Except HTTPError UserRow) : Option ℕ :=
  match r with
  | .error e => some e.status_code
  | .ok _ => none

/-- The detail text of a failed identity resolution, if it failed. -/
def errDetail (r : Except HTTPError UserRow) : Option String :=
  match r with
  | .error e => some e.detail
  | .ok _ => none

/-- The WWW-Authenticate header of a failed identity resolution, if it
failed. -/
def errWWWAuth (r : Except HTTPError UserRow) : Option (Option String) :=
  match r with
  | .error e => some e.wwwAuthenticate
  | .ok _ => none

/-! ## Requests, responses and the middleware pipeline -/

/-- An inbound HTTP request as seen by the middleware stack. -/
structure Request where
  method : String
  path : String
  headers : List (String × String)
  client_host : String
  deriving DecidableEq

/-- An HTTP response: status code, JSON body object, headers. -/
structure Response where
  status_code : ℕ
  body : List (String × ClaimValue)
  headers : List (String × String)
  deriving DecidableEq

/-- Read a header value (first occurrence). -/
def headers_get (hs : List (String × String)) (k : String) : Option String :=
  (hs.find? (fun p => p.1 == k)).map (fun p => p.2)

/-- Assign a header value, replacing any previous occurrence. -/
def headers_set (hs : List (String × String)) (k v : String) :
    List (String × String) :=
  hs.filter (fun p => p.1 ≠ k) ++ [(k, v)]

/-- The Prometheus collectors touched by PrometheusMiddleware: one entry of
request_count per counter increment (method, endpoint, status), one entry of
duration_samples per histogram observation (method, endpoint), the in-flight
gauge value, and a count of every touch (inc or dec) of that gauge. -/
structure MetricsState where
  request_count : List (String × String × ℕ)
  duration_samples : List (String × String)
  in_progress : ℤ
  in_progress_touches : ℕ
  deriving DecidableEq

/-- The process-wide mutable state the pipeline acts on: the rate limiter map
and the Prometheus collectors. -/
structure AppState where
  limiter : RateState
  metrics : MetricsState

/-- The allowlist of paths skipped by RateLimitMiddleware.dispatch. -/
def skip_paths : List String :=
  ["/health", "/metrics", "/", "/docs", "/redoc", "/openapi.json"]

/-- The 429 response returned when the minute window is exhausted. -/
def minute_limit_response : Response :=
  { status_code := 429,
    body := [("detail", .str "Rate limit exceeded. Try again in 1 minute."),
             ("retry_after", .num 60)],
    headers := [("Retry-After", "60")] }

/-- The 429 response returned when the hour window is exhausted. -/
def hour_limit_response : Response :=
  { status_code := 429,
    body := [("detail", .str "Rate limit exceeded. Try again later."),
             ("retry_after", .num 3600)],
    headers := [("Retry-After", "3600")] }

/-- RateLimitMiddleware.dispatch.  Skips the allowlisted paths; otherwise runs
the minute check and then the hour check (both always run), rejects with 429
when either failed (minute reported first), and otherwise forwards to
call_next and stamps the quota headers on the response. -/
def rate_limit_dispatch (requests_per_minute requests_per_hour : ℕ)
    (req : Request) (now : ℤ) (st : AppState)
    (call_next : AppState → AppState × Response) : AppState × Response :=
  if req.path ∈ skip_paths then call_next st
  else
    let client_ip := req.client_host
    let minuteRes :=
      is_allowed st.limiter (client_ip ++ ":minute") requests_per_minute 60 now
    let st1 : AppState := { st with limiter := minuteRes.2 }
    let hourRes :=
      is_allowed st1.limiter (client_ip ++ ":hour") requests_per_hour 3600 now
    let st2 : AppState := { st1 with limiter := hourRes.2 }
    if minuteRes.1.1 = false then (st2, minute_limit_response)
    else if hourRes.1.1 = false then (st2, hour_limit_response)
    else
      let nxt := call_next st2
      let hs1 := headers_set nxt.2.headers "X-RateLimit-Limit-Minute"
        (toString requests_per_minute)
      let hs2 := headers_set hs1 "X-RateLimit-Remaining-Minute"
        (toString minuteRes.1.2)
      let hs3 := headers_set hs2 "X-RateLimit-Limit-Hour"
        (toString requests_per_hour)
      let hs4 := headers_set hs3 "X-RateLimit-Remaining-Hour"
        (toString hourRes.1.2)
      (nxt.1, { nxt.2 with headers := hs4 })

/-- PrometheusMiddleware.dispatch.  Skips the metrics-export path; otherwise
increments the in-flight gauge, runs the wrapped application, observes the
duration histogram and increments the request counter with the final status,
and decrements the gauge. -/
def prometheus_dispatch (req : Request) (st : AppState)
    (call_next : AppState → AppState × Response) : AppState × Response :=
  if req.path = "/metrics" then call_next st
  else
    let stIn : AppState :=
      { st with metrics :=
          { st.metrics with
              in_progress := st.metrics.in_progress + 1,
              in_progress_touches := st.metrics.in_progress_touches + 1 } }
    let nxt := call_next stIn
    let stObs : AppState :=
      { nxt.1 with metrics :=
          { nxt.1.metrics with
              duration_samples :=
                nxt.1.metrics.duration_samples ++ [(req.method, req.path)],
              request_count :=
                nxt.1.metrics.request_count ++
                  [(req.method, req.path, nxt.2.status_code)] } }
    let stOut : AppState :=
      { stObs with metrics :=
          { stObs.metrics with
              in_progress := stObs.metrics.in_progress - 1,
              in_progress_touches := stObs.metrics.in_progress_touches + 1 } }
    (stOut, nxt.2)

/-- RequestLoggingMiddleware.dispatch.  Takes the inbound X-Request-ID header
if present, else the freshly generated uuid, runs the wrapped application and
stamps the id on the response. -/
def logging_dispatch (generated_id : String) (req : Request) (st : AppState)
    (call_next : AppState → AppState × Response) : AppState × Response :=
  let request_id := (headers_get req.headers "X-Request-ID").getD generated_id
  let nxt := call_next st
  (nxt.1, { nxt.2 with headers := headers_set nxt.2.headers "X-Request-ID" request_id })

/-- The middleware pipeline assembled by create_app.  Starlette add_middleware
inserts each middleware at the top of the stack, so the last middleware added
is the outermost: create_app adds RequestLoggingMiddleware, then
RateLimitMiddleware (60 per minute, 1000 per hour), then PrometheusMiddleware,
hence a request traverses Prometheus, then rate limiting, then request
logging, then the routes.  The CORS middleware (innermost, a passthrough for
plain requests) is omitted. -/
def create_app_pipeline (generated_id : String)
    (router : Request → AppState → AppState × Response) (req : Request)
    (now : ℤ) (st : AppState) : AppState × Response :=
  prometheus_dispatch req st (fun s1 =>
    rate_limit_dispatch 60 1000 req now s1 (fun s2 =>
      logging_dispatch generated_id req s2 (fun s3 => router req s3)))

/-! ## Login route (src/aetherlens/api/routes/auth.py) -/

/-- A row of the users table as selected by the login route. -/
structure DbUser where
  user_id : String
  username : String
  email : String
  password_hash : String
  role : String
  deriving DecidableEq

/-- The body of a login request. -/
structure LoginRequest where
  username : String
  password : String
  deriving DecidableEq

/-- The TokenResponse model returned on successful login. -/
structure TokenResponse where
  access_token : Jwt
  refresh_token : Jwt
  token_type : String
  expires_in : ℤ

/-- The login handler.  users is the external store keyed by username;
verify_password is the salted-hash check from aetherlens.security.passwords
(modelled from the spec as an abstract predicate, its source file is not part
of the admission layer); expire_minutes and refresh_days are the configured
token lifetimes.  On success the response reports the literal expires_in of
60 * 60 seconds. -/
def login (req : LoginRequest) (users : String → Option DbUser)
    (verify_password : String → String → Bool)
    (expire_minutes refresh_days : ℤ) (secret_key algorithm : String)
    (now : ℤ) : Except HTTPError TokenResponse :=
  match users req.username with
  | none =>
    .error { status_code := 401, detail := "Incorrect username or password",
             wwwAuthenticate := some "Bearer" }
  | some user =>
    if verify_password req.password user.password_hash = false then
      .error { status_code := 401, detail := "Incorrect username or password",
               wwwAuthenticate := some "Bearer" }
    else
      let token_data : ClaimSet :=
        ((emptyClaims.set "sub" (.str user.user_id)).set
          "username" (.str user.username)).set "role" (.str user.role)
      let access := create_access_token token_data none expire_minutes
        secret_key algorithm now
      let refresh := create_refresh_token (emptyClaims.set "sub" (.str user.user_id))
        none refresh_days secret_key algorithm now
      .ok { access_token := access, refresh_token := refresh,
            token_type := "bearer", expires_in := 60 * 60 }

/-! ## Concrete inputs used by the closed counterexample theorems -/

/-- Empty metrics collectors. -/
def emptyMetrics : MetricsState :=
  { request_count := [], duration_samples := [], in_progress := 0,
    in_progress_touches := 0 }

/-- A limiter map in which client 1.2.3.4 has already spent its whole minute
budget of 60 requests at instant 0. -/
def limiterMinuteFull : RateState :=
  fun k => if k = "1.2.3.4:minute" then List.replicate 60 (0 : ℤ) else []

/-- A request from client 1.2.3.4 to an ordinary API path. -/
def devicesReq : Request :=
  { method := "GET", path := "/api/v1/devices", headers := [],
    client_host := "1.2.3.4" }

/-- A request to the Kubernetes liveness probe path. -/
def livenessReq : Request :=
  { method := "GET", path := "/health/live", headers := [],
    client_host := "9.9.9.9" }

/-- A request to the aggregate health path. -/
def healthReq : Request :=
  { method := "GET", path := "/health", headers := [],
    client_host := "9.9.9.9" }

/-- A plain 200 handler standing in for the routes. -/
def okRouter : Request → AppState → AppState × Response :=
  fun _ s => (s, { status_code := 200, body := [], headers := [] })

/-- A plain 200 downstream application for single-middleware runs. -/
def okNext : AppState → AppState × Response :=
  fun s => (s, { status_code := 200, body := [], headers := [] })

/-- A limiter map with no recorded timestamps. -/
def emptyLimiter : RateState := fun _ => []

/-- A limiter map whose key k holds the single timestamp 0. -/
def limiterSingle : RateState := fun k => if k = "k" then [0] else []

/-- A limiter map in which client 9.9.9.9 has already spent its whole minute
budget of 60 requests at instant 0. -/
def limiterMinuteFull99 : RateState :=
  fun k => if k = "9.9.9.9:minute" then List.replicate 60 (0 : ℤ) else []

/-- A structurally valid token whose signature bytes were tampered with and
whose exp claim lies in the past. -/
def tamperedExpiredJwt : Jwt :=
  { payload := (emptyClaims.set "exp" (.num (-100))).set "sub" (.str "u"),
    signedWith := "secret", alg := "HS256", wellFormed := true, intact := false }

/-- A tampered token presented by an anonymous caller. -/
def badJwt : Jwt :=
  { payload := emptyClaims, signedWith := "other", alg := "HS256",
    wellFormed := true, intact := false }

/-- A well-signed unexpired token carrying no sub claim. -/
def goodJwt : Jwt := jwt_encode (emptyClaims.set "exp" (.num 100)) "s" "HS256"

/-- A concrete caller record. -/
def aliceUser : DbUser :=
  { user_id := "u-1", username := "alice", email := "a@example.com",
    password_hash := "h", role := "user" }

/-- A store containing exactly alice. -/
def aliceStore : String → Option DbUser :=
  fun n => if n = "alice" then some aliceUser else none

/-- A password check that accepts everything (stands in for a successful
verification). -/
def alwaysVerify : String → String → Bool := fun _ _ => true

/-! ## Theorems -/

/-- Reading back the key just written into a claim set. -/
lemma ClaimSet.set_same (d : ClaimSet) (k : String) (v : ClaimValue) :
    (d.set k v) k = some v := by
  simp [ClaimSet.set]

/-- Reading another key after a claim-set write. -/
lemma ClaimSet.set_other (d : ClaimSet) (k : String) (v : ClaimValue)
    (q : String) (h : q ≠ k) : (d.set k v) q = d q := by
  simp [ClaimSet.set, h]

/-- Decoding a freshly created access token with the matching secret and
algorithm: it fails as expired exactly when the chosen lifetime is negative,
and otherwise returns the payload - the input claims overlaid with exp, iat
and type. -/
lemma jwt_decode_create (data : ClaimSet) (delta : Option ℤ) (m : ℤ)
    (secret alg : String) (now : ℤ) :
    jwt_decode (create_access_token data delta m secret alg now) secret [alg] now =
      if now + delta.getD (m * 60) < now
      then .error .expiredSignature
      else .ok (((data.set "exp" (.num (now + delta.getD (m * 60)))).set "iat"
          (.num now)).set "type" (.str "access")) := by
  unfold create_access_token jwt_encode jwt_decode
  simp [ClaimSet.set]

/-- Decoding a freshly created access token with the matching secret and
algorithm: it fails as expired exactly when the chosen lifetime is negative,
and otherwise returns the payload - the input claims overlaid with exp, iat
and type. -/
lemma decode_token_create (data : ClaimSet) (delta : Option ℤ) (m : ℤ)
    (secret alg : String) (now : ℤ) :
    decode_token (create_access_token data delta m secret alg now) secret alg now =
      if now + delta.getD (m * 60) < now
      then .error { status_code := 401, detail := "Token has expired",
                    wwwAuthenticate := some "Bearer" }
      else .ok (((data.set "exp" (.num (now + delta.getD (m * 60)))).set "iat"
          (.num now)).set "type" (.str "access")) := by
  unfold decode_token
  rw [jwt_decode_create]
  by_cases hlt : now + delta.getD (m * 60) < now
  · rw [if_pos hlt, if_pos hlt]
  · rw [if_neg hlt, if_neg hlt]

/-- The decision part of one limiter call, as a function of the pruned count. -/
lemma is_allowed_fst (requests : RateState) (key : String) (max_requests : ℕ)
    (w now : ℤ) :
    (is_allowed requests key max_requests w now).1 =
      if ((requests key).filter (fun t => now - w < t)).length < max_requests
      then ((true : Bool), (max_requests : ℤ) -
            ((requests key).filter (fun t => now - w < t)).length - 1)
      else (false, 0) := by
  simp only [is_allowed]
  split <;> rfl

/-- The entry of the checked key after one limiter call: the pruned list, with
now appended when the call was admitted. -/
lemma is_allowed_self (requests : RateState) (key : String) (max_requests : ℕ)
    (w now : ℤ) :
    (is_allowed requests key max_requests w now).2 key =
      if ((requests key).filter (fun t => now - w < t)).length < max_requests
      then ((requests key).filter (fun t => now - w < t)) ++ [now]
      else (requests key).filter (fun t => now - w < t) := by
  simp only [is_allowed]
  split <;> simp

/-- Entries of other keys are untouched by a limiter call. -/
lemma is_allowed_other (requests : RateState) (key k : String)
    (max_requests : ℕ) (w now : ℤ) (hk : k ≠ key) :
    (is_allowed requests key max_requests w now).2 k = requests k := by
  simp only [is_allowed]
  split <;> simp [hk]

/-- Behaviour of a call sequence for one key when every call lands within one
window of every recorded timestamp: no timestamp is ever pruned, so the
results follow expected_results and the final entry holds the first
max_requests minus base call times. -/
lemma run_calls_spec (key : String) (max_requests : ℕ) (w : ℤ)
    (times : List ℤ) :
    ∀ (requests : RateState),
      (∀ x ∈ requests key, ∀ t ∈ times, t - w < x) →
      (∀ x ∈ times, ∀ t ∈ times, t - w < x) →
      (run_calls requests key max_requests w times).2 =
          expected_results max_requests (requests key).length times.length ∧
        (run_calls requests key max_requests w times).1 key =
          requests key ++ times.take (max_requests - (requests key).length) := by
  induction times with
  | nil =>
    intro requests _ _
    simp [run_calls, expected_results]
  | cons t ts ih =>
    intro requests h1 h2
    have hmemt : t ∈ t :: ts := List.mem_cons_self t ts
    have hprune : (requests key).filter (fun x => decide (t - w < x)) = requests key := by
      apply List.filter_eq_self.mpr
      intro x hx
      simpa using h1 x hx t hmemt
    have hfst := is_allowed_fst requests key max_requests w t
    have hself := is_allowed_self requests key max_requests w t
    rw [hprune] at hfst hself
    by_cases hc : (requests key).length < max_requests
    · rw [if_pos hc] at hfst hself
      have h1' : ∀ x ∈ (is_allowed requests key max_requests w t).2 key,
          ∀ s ∈ ts, s - w < x := by
        rw [hself]
        intro x hx s hs
        rcases List.mem_append.mp hx with hx | hx
        · exact h1 x hx s (List.mem_cons_of_mem t hs)
        · have hxt : x = t := by simpa using hx
          subst hxt
          exact h2 x hmemt s (List.mem_cons_of_mem x hs)
      have h2' : ∀ x ∈ ts, ∀ s ∈ ts, s - w < x := fun x hx s hs =>
        h2 x (List.mem_cons_of_mem t hx) s (List.mem_cons_of_mem t hs)
      obtain ⟨hres, hent⟩ := ih ((is_allowed requests key max_requests w t).2) h1' h2'
      have hlen' : ((is_allowed requests key max_requests w t).2 key).length =
          (requests key).length + 1 := by
        rw [hself]; simp
      constructor
      · show (is_allowed requests key max_requests w t).1 ::
            (run_calls ((is_allowed requests key max_requests w t).2)
              key max_requests w ts).2 = _
        rw [hres, hlen', hfst]
        simp [expected_results, if_pos hc]
      · show (run_calls ((is_allowed requests key max_requests w t).2)
            key max_requests w ts).1 key = _
        rw [hent, hlen', hself]
        have hstep : max_requests - (requests key).length =
            (max_requests - ((requests key).length + 1)) + 1 := by omega
        rw [hstep, List.take_succ_cons, List.append_assoc]
        rfl
    · rw [if_neg hc] at hfst hself
      have h1' : ∀ x ∈ (is_allowed requests key max_requests w t).2 key,
          ∀ s ∈ ts, s - w < x := by
        rw [hself]
        intro x hx s hs
        exact h1 x hx s (List.mem_cons_of_mem t hs)
      have h2' : ∀ x ∈ ts, ∀ s ∈ ts, s - w < x := fun x hx s hs =>
        h2 x (List.mem_cons_of_mem t hx) s (List.mem_cons_of_mem t hs)
      obtain ⟨hres, hent⟩ := ih ((is_allowed requests key max_requests w t).2) h1' h2'
      have hlen' : ((is_allowed requests key max_requests w t).2 key).length =
          (requests key).length := by
        rw [hself]
      constructor
      · show (is_allowed requests key max_requests w t).1 ::
            (run_calls ((is_allowed requests key max_requests w t).2)
              key max_requests w ts).2 = _
        rw [hres, hlen', hfst]
        simp [expected_results, if_neg hc]
      · show (run_calls ((is_allowed requests key max_requests w t).2)
            key max_requests w ts).1 key = _
        rw [hent, hlen', hself]
        have hz : max_requests - (requests key).length = 0 := by omega
        rw [hz]
        simp

/-- Index lookup into expected_results. -/
lemma expected_results_get (max_requests n : ℕ) :
    ∀ (base i : ℕ), i < n →
      (expected_results max_requests base n)[i]? =
        some (if base + i < max_requests
              then ((true : Bool), (max_requests : ℤ) - (base + i) - 1)
              else (false, 0)) := by
  induction n with
  | zero =>
    intro base i hi
    exact absurd hi (Nat.not_lt_zero i)
  | succ n ih =>
    intro base i hi
    by_cases hb : base < max_requests
    · simp only [expected_results, if_pos hb]
      cases i with
      | zero => simp [if_pos hb]
      | succ i =>
        rw [List.getElem?_cons_succ, ih (base + 1) i (by omega)]
        have harith : base + 1 + i = base + (i + 1) := by omega
        have hcast : ((base + 1 : ℕ) : ℤ) + (i : ℤ) = (base : ℤ) + ((i + 1 : ℕ) : ℤ) := by
          push_cast
          ring
        rw [harith, hcast]
    · simp only [expected_results, if_neg hb]
      cases i with
      | zero =>
        rw [List.getElem?_cons_zero]
        rw [if_neg (by omega)]
      | succ i =>
        rw [List.getElem?_cons_succ, ih base i (by omega)]
        rw [if_neg (by omega), if_neg (by omega)]

/-- C2: the sliding-window check.  Each call decides from the pruned list:
admitted with remaining max_requests - count - 1 when the count is below
max_requests (appending now to the entry), rejected with remaining 0
otherwise; consequently, starting from an empty entry, of any burst of calls
within one window exactly the first max_requests are admitted (with remaining
descending) and every later call of the burst, in particular the call number
max_requests + 1, is rejected; and as soon as a recorded timestamp (the
oldest, in particular) falls outside the window, the next call is admitted
again. -/
theorem c2_sliding_window_correct (key : String) (max_requests : ℕ) (w : ℤ)
    (times : List ℤ) (requests0 : RateState)
    (hempty : requests0 key = [])
    (hwin : ∀ x ∈ times, ∀ t ∈ times, t - w < x) :
    (∀ (requests : RateState) (now : ℤ),
        (is_allowed requests key max_requests w now).1 =
          if ((requests key).filter (fun t => now - w < t)).length < max_requests
          then ((true : Bool), (max_requests : ℤ) -
                ((requests key).filter (fun t => now - w < t)).length - 1)
          else (false, 0)) ∧
    (∀ (requests : RateState) (now : ℤ),
        (is_allowed requests key max_requests w now).2 key =
          if ((requests key).filter (fun t => now - w < t)).length < max_requests
          then ((requests key).filter (fun t => now - w < t)) ++ [now]
          else (requests key).filter (fun t => now - w < t)) ∧
    (∀ i, i < times.length →
        ((run_calls requests0 key max_requests w times).2)[i]? =
          some (if i < max_requests
                then ((true : Bool), (max_requests : ℤ) - i - 1)
                else (false, 0))) ∧
    (∀ (requests : RateState) (now : ℤ),
        (requests key).length ≤ max_requests →
        (∃ x ∈ requests key, x ≤ now - w) →
        (is_allowed requests key max_requests w now).1.1 = true) := by
  refine ⟨fun requests now => is_allowed_fst requests key max_requests w now,
    fun requests now => is_allowed_self requests key max_requests w now, ?_, ?_⟩
  · intro i hi
    have h1 : ∀ x ∈ requests0 key, ∀ t ∈ times, t - w < x := by
      rw [hempty]; intro x hx; exact absurd hx (List.not_mem_nil x)
    obtain ⟨hres, _⟩ := run_calls_spec key max_requests w times requests0 h1 hwin
    rw [hres, hempty]
    have := expected_results_get max_requests times.length 0 i hi
    simpa using this
  · intro requests now hlen ⟨x, hx, hxle⟩
    have hstrict :
        ((requests key).filter (fun t => decide (now - w < t))).length <
          (requests key).length := by
      rw [List.length_filter_lt_length_iff_exists]
      exact ⟨x, hx, by simpa using hxle⟩
    have hc : ((requests key).filter (fun t => decide (now - w < t))).length <
        max_requests := lt_of_lt_of_le hstrict hlen
    rw [is_allowed_fst, if_pos hc]

/-- C2 witness: policy of 3 requests per 60-second window, four calls at
instants 0, 1, 2, 3 from a fresh entry - the first three admitted with
remaining 2, 1, 0, the fourth rejected. -/
theorem c2_witness :
    emptyLimiter "1.2.3.4:minute" = [] ∧
    (∀ x ∈ ([0, 1, 2, 3] : List ℤ), ∀ t ∈ ([0, 1, 2, 3] : List ℤ), t - 60 < x) ∧
    ((∀ (requests : RateState) (now : ℤ),
        (is_allowed requests "1.2.3.4:minute" 3 60 now).1 =
          if ((requests "1.2.3.4:minute").filter (fun t => now - 60 < t)).length < 3
          then ((true : Bool), (3 : ℤ) -
                ((requests "1.2.3.4:minute").filter (fun t => now - 60 < t)).length - 1)
          else (false, 0)) ∧
      (∀ (requests : RateState) (now : ℤ),
        (is_allowed requests "1.2.3.4:minute" 3 60 now).2 "1.2.3.4:minute" =
          if ((requests "1.2.3.4:minute").filter (fun t => now - 60 < t)).length < 3
          then ((requests "1.2.3.4:minute").filter (fun t => now - 60 < t)) ++ [now]
          else (requests "1.2.3.4:minute").filter (fun t => now - 60 < t)) ∧
      (∀ i, i < ([0, 1, 2, 3] : List ℤ).length →
        ((run_calls emptyLimiter "1.2.3.4:minute" 3 60 [0, 1, 2, 3]).2)[i]? =
          some (if i < 3 then ((true : Bool), (3 : ℤ) - i - 1) else (false, 0))) ∧
      (∀ (requests : RateState) (now : ℤ),
        (requests "1.2.3.4:minute").length ≤ 3 →
        (∃ x ∈ requests "1.2.3.4:minute", x ≤ now - 60) →
        (is_allowed requests "1.2.3.4:minute" 3 60 now).1.1 = true)) :=
  ⟨rfl, by decide,
    c2_sliding_window_correct "1.2.3.4:minute" 3 60 [0, 1, 2, 3] emptyLimiter
      rfl (by decide)⟩

/-- C9: the entry invariant of the limiter map is preserved by every call of
is_allowed and by nothing else (the embedding has no other operation on the
map, matching the absence of a background sweep).  Under a positive window, a
monotone clock (every recorded timestamp at or before now) and a fixed
max_requests, the entry of the checked key after the call contains only
timestamps strictly newer than now minus the window, is sorted in
nondecreasing order, has length at most max_requests, and again precedes the
clock; entries of all other keys are untouched. -/
theorem c9_entry_invariant (requests : RateState) (key : String)
    (max_requests : ℕ) (w now : ℤ)
    (hw : 0 < w)
    (hsorted : (requests key).Pairwise (· ≤ ·))
    (hpast : ∀ x ∈ requests key, x ≤ now)
    (hlen : (requests key).length ≤ max_requests) :
    ((is_allowed requests key max_requests w now).2 key).Pairwise (· ≤ ·) ∧
    (∀ x ∈ (is_allowed requests key max_requests w now).2 key, now - w < x) ∧
    ((is_allowed requests key max_requests w now).2 key).length ≤ max_requests ∧
    (∀ x ∈ (is_allowed requests key max_requests w now).2 key, x ≤ now) ∧
    (∀ k, k ≠ key → (is_allowed requests key max_requests w now).2 k = requests k) := by
  have hother := fun k hk =>
    is_allowed_other requests key k max_requests w now hk
  rw [is_allowed_self]
  have hsub : List.Sublist ((requests key).filter (fun t => decide (now - w < t)))
      (requests key) := List.filter_sublist _
  have hpair : ((requests key).filter (fun t => decide (now - w < t))).Pairwise (· ≤ ·) :=
    hsorted.sublist hsub
  have hmem : ∀ x ∈ (requests key).filter (fun t => decide (now - w < t)), now - w < x := by
    intro x hx
    simpa using (List.mem_filter.mp hx).2
  have hpast' : ∀ x ∈ (requests key).filter (fun t => decide (now - w < t)), x ≤ now :=
    fun x hx => hpast x (hsub.subset hx)
  have hlen' : ((requests key).filter (fun t => decide (now - w < t))).length ≤
      (requests key).length := List.length_filter_le _ _
  by_cases hc : ((requests key).filter (fun t => decide (now - w < t))).length < max_requests
  · rw [if_pos hc]
    refine ⟨?_, ?_, ?_, ?_, hother⟩
    · refine List.pairwise_append.mpr ⟨hpair, List.pairwise_singleton _ _, ?_⟩
      intro x hx y hy
      have hynow : y = now := by simpa using hy
      subst hynow
      exact hpast' x hx
    · intro x hx
      rcases List.mem_append.mp hx with hx | hx
      · exact hmem x hx
      · have hxnow : x = now := by simpa using hx
        subst hxnow
        omega
    · rw [List.length_append]
      simpa using hc
    · intro x hx
      rcases List.mem_append.mp hx with hx | hx
      · exact hpast' x hx
      · have hxnow : x = now := by simpa using hx
        exact hxnow.le
  · rw [if_neg hc]
    exact ⟨hpair, hmem, hlen'.trans hlen, hpast', hother⟩

/-- C9 witness: a one-element entry at instant 0, checked at instant 5 under a
60-second window and a budget of 2. -/
theorem c9_witness :
    ((0 : ℤ) < 60 ∧
      (limiterSingle "k").Pairwise (· ≤ ·) ∧
      (∀ x ∈ limiterSingle "k", x ≤ 5) ∧
      (limiterSingle "k").length ≤ 2) ∧
    (((is_allowed limiterSingle "k" 2 60 5).2 "k").Pairwise (· ≤ ·) ∧
      (∀ x ∈ (is_allowed limiterSingle "k" 2 60 5).2 "k", (5 : ℤ) - 60 < x) ∧
      ((is_allowed limiterSingle "k" 2 60 5).2 "k").length ≤ 2 ∧
      (∀ x ∈ (is_allowed limiterSingle "k" 2 60 5).2 "k", x ≤ 5) ∧
      (∀ k, k ≠ "k" → (is_allowed limiterSingle "k" 2 60 5).2 k = limiterSingle k)) :=
  ⟨⟨by decide, by simp [limiterSingle], by simp [limiterSingle], by simp [limiterSingle]⟩,
    c9_entry_invariant limiterSingle "k" 2 60 5 (by decide)
      (by simp [limiterSingle]) (by simp [limiterSingle]) (by simp [limiterSingle])⟩

/-- Shape of the admission dispatch on a non-allowlisted path when the minute
check rejects: both checks have run, the state carries both writes, and the
minute 429 response is returned without consulting call_next. -/
lemma rate_limit_dispatch_minute_rejected (rpm rph : ℕ) (req : Request)
    (now : ℤ) (st : AppState) (call_next : AppState → AppState × Response)
    (hpath : req.path ∉ skip_paths)
    (hm : (is_allowed st.limiter (req.client_host ++ ":minute") rpm 60 now).1.1
      = false) :
    rate_limit_dispatch rpm rph req now st call_next =
      ({ st with limiter :=
          (is_allowed
            (is_allowed st.limiter (req.client_host ++ ":minute") rpm 60 now).2
            (req.client_host ++ ":hour") rph 3600 now).2 },
        minute_limit_response) := by
  unfold rate_limit_dispatch
  rw [if_neg hpath]
  simp only [hm, if_pos]

/-- Shape of the admission dispatch on a non-allowlisted path when the minute
check admits but the hour check rejects. -/
lemma rate_limit_dispatch_hour_rejected (rpm rph : ℕ) (req : Request)
    (now : ℤ) (st : AppState) (call_next : AppState → AppState × Response)
    (hpath : req.path ∉ skip_paths)
    (hm : (is_allowed st.limiter (req.client_host ++ ":minute") rpm 60 now).1.1
      = true)
    (hh : (is_allowed
        (is_allowed st.limiter (req.client_host ++ ":minute") rpm 60 now).2
        (req.client_host ++ ":hour") rph 3600 now).1.1 = false) :
    rate_limit_dispatch rpm rph req now st call_next =
      ({ st with limiter :=
          (is_allowed
            (is_allowed st.limiter (req.client_host ++ ":minute") rpm 60 now).2
            (req.client_host ++ ":hour") rph 3600 now).2 },
        hour_limit_response) := by
  unfold rate_limit_dispatch
  rw [if_neg hpath]
  simp only [hm, hh, if_pos]
  simp

/-- Shape of the admission dispatch on an allowlisted path: the wrapped
application is called on the untouched state. -/
lemma rate_limit_dispatch_skipped (rpm rph : ℕ) (req : Request) (now : ℤ)
    (st : AppState) (call_next : AppState → AppState × Response)
    (hpath : req.path ∈ skip_paths) :
    rate_limit_dispatch rpm rph req now st call_next = call_next st := by
  unfold rate_limit_dispatch
  rw [if_pos hpath]

/-- C1 counterexample: the claim that a rejected request consumes no quota in
either window is false.  Client 1.2.3.4 has exhausted its minute window (60
fresh timestamps) while its hour window is empty; the dispatch rejects the
request with 429, yet the hour-window entry gains the timestamp of the
rejected attempt, because the hour check runs before the rejection decision
and records the attempt. -/
theorem c1_counterexample :
    (rate_limit_dispatch 60 1000 devicesReq 0
        { limiter := limiterMinuteFull, metrics := emptyMetrics }
        okNext).2.status_code = 429 ∧
    limiterMinuteFull "1.2.3.4:hour" = [] ∧
    (rate_limit_dispatch 60 1000 devicesReq 0
        { limiter := limiterMinuteFull, metrics := emptyMetrics }
        okNext).1.limiter "1.2.3.4:hour" = [0] := by
  refine ⟨?_, ?_, ?_⟩ <;> decide

/-- C1 amended: on a rejected request the window whose quota is exhausted
records nothing - its entry is merely pruned - but the other window still
consumes quota, because both checks run before the rejection decision.  When
the minute window rejects, the hour entry still gains the timestamp whenever
the hour window is not exhausted; when the hour window rejects, the minute
entry has already gained the timestamp.  Only a per-window statement of
no-consumption-on-rejection holds, not the per-request one. -/
theorem c1_amended (rpm rph : ℕ) (req : Request) (now : ℤ) (st : AppState)
    (call_next : AppState → AppState × Response)
    (hpath : req.path ∉ skip_paths)
    (hkeys : req.client_host ++ ":minute" ≠ req.client_host ++ ":hour") :
    (rpm ≤ ((st.limiter (req.client_host ++ ":minute")).filter
        (fun t => now - 60 < t)).length →
      (rate_limit_dispatch rpm rph req now st call_next).2 = minute_limit_response ∧
      (rate_limit_dispatch rpm rph req now st call_next).1.limiter
          (req.client_host ++ ":minute") =
        (st.limiter (req.client_host ++ ":minute")).filter (fun t => now - 60 < t) ∧
      (rate_limit_dispatch rpm rph req now st call_next).1.limiter
          (req.client_host ++ ":hour") =
        (if ((st.limiter (req.client_host ++ ":hour")).filter
              (fun t => now - 3600 < t)).length < rph
         then ((st.limiter (req.client_host ++ ":hour")).filter
              (fun t => now - 3600 < t)) ++ [now]
         else (st.limiter (req.client_host ++ ":hour")).filter
              (fun t => now - 3600 < t))) ∧
    (((st.limiter (req.client_host ++ ":minute")).filter
        (fun t => now - 60 < t)).length < rpm →
      rph ≤ ((st.limiter (req.client_host ++ ":hour")).filter
        (fun t => now - 3600 < t)).length →
      (rate_limit_dispatch rpm rph req now st call_next).2 = hour_limit_response ∧
      (rate_limit_dispatch rpm rph req now st call_next).1.limiter
          (req.client_host ++ ":hour") =
        (st.limiter (req.client_host ++ ":hour")).filter (fun t => now - 3600 < t) ∧
      (rate_limit_dispatch rpm rph req now st call_next).1.limiter
          (req.client_host ++ ":minute") =
        ((st.limiter (req.client_host ++ ":minute")).filter
          (fun t => now - 60 < t)) ++ [now]) := by
  have hkeys' : req.client_host ++ ":hour" ≠ req.client_host ++ ":minute" :=
    Ne.symm hkeys
  have hm2min := is_allowed_self st.limiter (req.client_host ++ ":minute") rpm 60 now
  have hm2hour := is_allowed_other st.limiter (req.client_host ++ ":minute")
    (req.client_host ++ ":hour") rpm 60 now hkeys'
  constructor
  · intro hle
    have hm : (is_allowed st.limiter (req.client_host ++ ":minute") rpm 60 now).1.1
        = false := by
      rw [is_allowed_fst, if_neg (not_lt.mpr hle)]
    rw [rate_limit_dispatch_minute_rejected rpm rph req now st call_next hpath hm]
    refine ⟨rfl, ?_, ?_⟩
    · show (is_allowed
          (is_allowed st.limiter (req.client_host ++ ":minute") rpm 60 now).2
          (req.client_host ++ ":hour") rph 3600 now).2
          (req.client_host ++ ":minute") = _
      rw [is_allowed_other _ _ _ _ _ _ hkeys, hm2min, if_neg (not_lt.mpr hle)]
    · show (is_allowed
          (is_allowed st.limiter (req.client_host ++ ":minute") rpm 60 now).2
          (req.client_host ++ ":hour") rph 3600 now).2
          (req.client_host ++ ":hour") = _
      rw [is_allowed_self, hm2hour]
  · intro hlt hhle
    have hm : (is_allowed st.limiter (req.client_host ++ ":minute") rpm 60 now).1.1
        = true := by
      rw [is_allowed_fst, if_pos hlt]
    have hh : (is_allowed
        (is_allowed st.limiter (req.client_host ++ ":minute") rpm 60 now).2
        (req.client_host ++ ":hour") rph 3600 now).1.1 = false := by
      rw [is_allowed_fst, hm2hour, if_neg (not_lt.mpr hhle)]
    rw [rate_limit_dispatch_hour_rejected rpm rph req now st call_next hpath hm hh]
    refine ⟨rfl, ?_, ?_⟩
    · show (is_allowed
          (is_allowed st.limiter (req.client_host ++ ":minute") rpm 60 now).2
          (req.client_host ++ ":hour") rph 3600 now).2
          (req.client_host ++ ":hour") = _
      rw [is_allowed_self, hm2hour, if_neg (not_lt.mpr hhle)]
    · show (is_allowed
          (is_allowed st.limiter (req.client_host ++ ":minute") rpm 60 now).2
          (req.client_host ++ ":hour") rph 3600 now).2
          (req.client_host ++ ":minute") = _
      rw [is_allowed_other _ _ _ _ _ _ hkeys, hm2min, if_pos hlt]

/-- C1 witness: client 1.2.3.4 with the minute window exhausted and an empty
hour window - the rejected request leaves the minute entry pruned-only but the
hour entry records the attempt. -/
theorem c1_witness :
    (devicesReq.path ∉ skip_paths ∧
      devicesReq.client_host ++ ":minute" ≠ devicesReq.client_host ++ ":hour" ∧
      60 ≤ ((limiterMinuteFull (devicesReq.client_host ++ ":minute")).filter
        (fun t => (0 : ℤ) - 60 < t)).length) ∧
    ((rate_limit_dispatch 60 1000 devicesReq 0
        { limiter := limiterMinuteFull, metrics := emptyMetrics }
        okNext).2 = minute_limit_response ∧
      (rate_limit_dispatch 60 1000 devicesReq 0
        { limiter := limiterMinuteFull, metrics := emptyMetrics }
        okNext).1.limiter (devicesReq.client_host ++ ":minute") =
        (limiterMinuteFull (devicesReq.client_host ++ ":minute")).filter
          (fun t => (0 : ℤ) - 60 < t) ∧
      (rate_limit_dispatch 60 1000 devicesReq 0
        { limiter := limiterMinuteFull, metrics := emptyMetrics }
        okNext).1.limiter (devicesReq.client_host ++ ":hour") =
        (if ((limiterMinuteFull (devicesReq.client_host ++ ":hour")).filter
              (fun t => (0 : ℤ) - 3600 < t)).length < 1000
         then ((limiterMinuteFull (devicesReq.client_host ++ ":hour")).filter
              (fun t => (0 : ℤ) - 3600 < t)) ++ [(0 : ℤ)]
         else (limiterMinuteFull (devicesReq.client_host ++ ":hour")).filter
              (fun t => (0 : ℤ) - 3600 < t))) :=
  ⟨⟨by decide, by decide, by decide⟩,
    (c1_amended 60 1000 devicesReq 0
        { limiter := limiterMinuteFull, metrics := emptyMetrics }
        okNext (by decide) (by decide)).1 (by decide)⟩

/-- C6 amended: the fixed allowlist is exactly the six paths of skip_paths
(aggregate health, metrics export, root, interactive docs, redoc, openapi
schema); for those paths the admission stage is bypassed entirely.  The
Kubernetes probe paths, /health/ready and /health/live, are not in the
allowlist, so they undergo admission like any other path: both the minute and
the hour check run, and on rejection the dispatch short-circuits, returning
the 429 response with the post-check state for every possible downstream
application. -/
theorem c6_amended (rpm rph : ℕ) (req : Request) (now : ℤ) (st : AppState) :
    (req.path ∈ skip_paths → ∀ call_next,
        rate_limit_dispatch rpm rph req now st call_next = call_next st) ∧
    (req.path ∉ skip_paths → ∀ call_next,
      ((is_allowed st.limiter (req.client_host ++ ":minute") rpm 60 now).1.1
          = false →
        rate_limit_dispatch rpm rph req now st call_next =
          ({ st with limiter :=
              (is_allowed
                (is_allowed st.limiter (req.client_host ++ ":minute") rpm 60 now).2
                (req.client_host ++ ":hour") rph 3600 now).2 },
            minute_limit_response)) ∧
      ((is_allowed st.limiter (req.client_host ++ ":minute") rpm 60 now).1.1
          = true →
        (is_allowed
            (is_allowed st.limiter (req.client_host ++ ":minute") rpm 60 now).2
            (req.client_host ++ ":hour") rph 3600 now).1.1 = false →
        rate_limit_dispatch rpm rph req now st call_next =
          ({ st with limiter :=
              (is_allowed
                (is_allowed st.limiter (req.client_host ++ ":minute") rpm 60 now).2
                (req.client_host ++ ":hour") rph 3600 now).2 },
            hour_limit_response))) := by
  refine ⟨fun hpath call_next =>
    rate_limit_dispatch_skipped rpm rph req now st call_next hpath,
    fun hpath call_next => ⟨fun hm =>
      rate_limit_dispatch_minute_rejected rpm rph req now st call_next hpath hm,
      fun hm hh =>
        rate_limit_dispatch_hour_rejected rpm rph req now st call_next hpath hm hh⟩⟩

/-- C6 witness: the aggregate health path is bypassed, while the liveness
probe path of a minute-exhausted client is short-circuited with the minute
429. -/
theorem c6_witness :
    (healthReq.path ∈ skip_paths ∧ livenessReq.path ∉ skip_paths ∧
      (is_allowed limiterMinuteFull99 (livenessReq.client_host ++ ":minute")
        60 60 0).1.1 = false) ∧
    rate_limit_dispatch 60 1000 healthReq 0
      { limiter := limiterMinuteFull99, metrics := emptyMetrics } okNext =
      okNext { limiter := limiterMinuteFull99, metrics := emptyMetrics } ∧
    rate_limit_dispatch 60 1000 livenessReq 0
      { limiter := limiterMinuteFull99, metrics := emptyMetrics } okNext =
      ({ limiter :=
          (is_allowed
            (is_allowed limiterMinuteFull99 (livenessReq.client_host ++ ":minute")
              60 60 0).2
            (livenessReq.client_host ++ ":hour") 1000 3600 0).2,
         metrics := emptyMetrics },
        minute_limit_response) :=
  ⟨⟨by decide, by decide, by decide⟩,
    (c6_amended 60 1000 healthReq 0
      { limiter := limiterMinuteFull99, metrics := emptyMetrics }).1
      (by decide) okNext,
    (((c6_amended 60 1000 livenessReq 0
      { limiter := limiterMinuteFull99, metrics := emptyMetrics }).2
      (by decide) okNext).1 (by decide))⟩

/-- C3: evaluation of the pipeline at a rate-limited request.  Because
create_app adds PrometheusMiddleware last and Starlette makes the last-added
middleware the outermost, the metrics stage wraps the admission stage: a 429
rejection increments the request counter with status 429, records a
request-duration sample, and touches the in-flight gauge twice, contradicting
the claim that admission precedes metrics so that rejected traffic never
reaches the metrics stage. -/
theorem c3_rate_limited_request_is_recorded_in_metrics :
    (create_app_pipeline "generated-id" okRouter devicesReq 0
        { limiter := limiterMinuteFull, metrics := emptyMetrics }).2.status_code = 429 ∧
    (create_app_pipeline "generated-id" okRouter devicesReq 0
        { limiter := limiterMinuteFull, metrics := emptyMetrics }).1.metrics.request_count =
      [("GET", "/api/v1/devices", 429)] ∧
    (create_app_pipeline "generated-id" okRouter devicesReq 0
        { limiter := limiterMinuteFull, metrics := emptyMetrics }).1.metrics.duration_samples =
      [("GET", "/api/v1/devices")] ∧
    (create_app_pipeline "generated-id" okRouter devicesReq 0
        { limiter := limiterMinuteFull, metrics := emptyMetrics }).1.metrics.in_progress_touches
      = 2 := by
  refine ⟨?_, ?_, ?_, ?_⟩ <;> decide

/-- C4: evaluation of the pipeline at a rate-limited request.  Because
create_app adds RequestLoggingMiddleware before RateLimitMiddleware and
Starlette makes the last-added middleware the outermost, the correlation
stage runs inside the admission stage: a 429 rejection response carries no
X-Request-ID header, contradicting the claim that every response of the
pipeline carries it.  The same pipeline does stamp the header on an admitted
request. -/
theorem c4_rate_limited_response_lacks_request_id :
    (create_app_pipeline "generated-id" okRouter devicesReq 0
        { limiter := limiterMinuteFull, metrics := emptyMetrics }).2.status_code = 429 ∧
    headers_get
      (create_app_pipeline "generated-id" okRouter devicesReq 0
        { limiter := limiterMinuteFull, metrics := emptyMetrics }).2.headers
      "X-Request-ID" = none ∧
    headers_get
      (create_app_pipeline "generated-id" okRouter devicesReq 0
        { limiter := emptyLimiter, metrics := emptyMetrics }).2.headers
      "X-Request-ID" = some "generated-id" := by
  refine ⟨?_, ?_, ?_⟩ <;> decide

/-- C6 counterexample: the claim that the admission stage is bypassed for the
liveness and readiness paths is false.  The allowlist of
RateLimitMiddleware.dispatch contains the aggregate health path but not the
probe path /health/live: a request to /health/live writes rate-window state
(its minute entry gains a timestamp), and with the minute window already
exhausted such a request is even rejected with 429. -/
theorem c6_counterexample :
    livenessReq.path = "/health/live" ∧
    livenessReq.path ∉ skip_paths ∧
    emptyLimiter "9.9.9.9:minute" = [] ∧
    (rate_limit_dispatch 60 1000 livenessReq 0
        { limiter := emptyLimiter, metrics := emptyMetrics }
        okNext).1.limiter "9.9.9.9:minute" = [0] ∧
    (rate_limit_dispatch 60 1000 livenessReq 0
        { limiter := limiterMinuteFull99, metrics := emptyMetrics }
        okNext).2.status_code = 429 := by
  refine ⟨?_, ?_, ?_, ?_, ?_⟩
  · rfl
  · simp [livenessReq, skip_paths]
  · rfl
  · decide
  · decide

/-- C7: token round trip.  For every claim set (not already carrying the
reserved exp, iat and type keys in the sense that lookups of other keys are
untouched) and nonnegative configured lifetime, verifying a freshly issued
access token succeeds and returns the input claims overlaid with expires_at,
issued_at and kind access; and a token issued with an explicit negative
lifetime of minus one hour immediately fails verification with the
token-expired failure. -/
theorem c7_token_round_trip (data : ClaimSet) (secret alg : String)
    (m now : ℤ) (hm : 0 ≤ m) :
    (decode_token (create_access_token data none m secret alg now) secret alg now =
      .ok (((data.set "exp" (.num (now + m * 60))).set "iat" (.num now)).set
        "type" (.str "access"))) ∧
    ((((data.set "exp" (.num (now + m * 60))).set "iat" (.num now)).set
        "type" (.str "access")) "exp" = some (.num (now + m * 60))) ∧
    ((((data.set "exp" (.num (now + m * 60))).set "iat" (.num now)).set
        "type" (.str "access")) "iat" = some (.num now)) ∧
    ((((data.set "exp" (.num (now + m * 60))).set "iat" (.num now)).set
        "type" (.str "access")) "type" = some (.str "access")) ∧
    (∀ k, k ≠ "exp" → k ≠ "iat" → k ≠ "type" →
      (((data.set "exp" (.num (now + m * 60))).set "iat" (.num now)).set
        "type" (.str "access")) k = data k) ∧
    (decode_token (create_access_token data (some (-3600)) m secret alg now)
        secret alg now =
      .error { status_code := 401, detail := "Token has expired",
               wwwAuthenticate := some "Bearer" }) := by
  refine ⟨?_, ?_, ?_, ?_, ?_, ?_⟩
  · rw [decode_token_create]
    have hnot : ¬ now + (none : Option ℤ).getD (m * 60) < now := by
      simp only [Option.getD]
      omega
    rw [if_neg hnot]
    simp
  · rw [ClaimSet.set_other _ _ _ _ (by decide), ClaimSet.set_other _ _ _ _ (by decide),
      ClaimSet.set_same]
  · rw [ClaimSet.set_other _ _ _ _ (by decide), ClaimSet.set_same]
  · rw [ClaimSet.set_same]
  · intro k h1 h2 h3
    rw [ClaimSet.set_other _ _ _ _ h3, ClaimSet.set_other _ _ _ _ h2,
      ClaimSet.set_other _ _ _ _ h1]
  · rw [decode_token_create]
    have hlt : now + (some (-3600) : Option ℤ).getD (m * 60) < now := by
      simp only [Option.getD]
      omega
    rw [if_pos hlt]

/-- C7 witness: subject claim u, secret s, algorithm HS256, configured
lifetime 60 minutes, clock at 0. -/
theorem c7_witness :
    (0 : ℤ) ≤ 60 ∧
    (decode_token
        (create_access_token (emptyClaims.set "sub" (.str "u")) none 60 "s" "HS256" 0)
        "s" "HS256" 0 =
      .ok ((((emptyClaims.set "sub" (.str "u")).set "exp"
          (.num ((0 : ℤ) + 60 * 60))).set "iat" (.num 0)).set
        "type" (.str "access"))) ∧
    (decode_token
        (create_access_token (emptyClaims.set "sub" (.str "u")) (some (-3600)) 60
          "s" "HS256" 0)
        "s" "HS256" 0 =
      .error { status_code := 401, detail := "Token has expired",
               wwwAuthenticate := some "Bearer" }) :=
  ⟨by decide,
    (c7_token_round_trip (emptyClaims.set "sub" (.str "u")) "s" "HS256" 60 0
      (by decide)).1,
    (c7_token_round_trip (emptyClaims.set "sub" (.str "u")) "s" "HS256" 60 0
      (by decide)).2.2.2.2.2⟩

/-- C8 counterexample: the claim that verification fails with TokenExpired
exactly when now is past expires_at is false.  A structurally valid token
whose exp lies in the past but whose signature bytes were tampered with fails
with the invalid-credentials failure, not the token-expired one: the
signature check precedes the expiry check. -/
theorem c8_counterexample :
    tamperedExpiredJwt.payload "exp" = some (.num (-100)) ∧
    (-100 : ℤ) < 0 ∧
    decode_token tamperedExpiredJwt "secret" "HS256" 0 =
      .error { status_code := 401, detail := "Could not validate credentials",
               wwwAuthenticate := some "Bearer" } ∧
    ("Could not validate credentials" : String) ≠ "Token has expired" := by
  refine ⟨by decide, by decide, rfl, by decide⟩

/-- C8 amended: failure precedence of token verification.  TokenInvalid,
surfaced as 401 with detail of unvalidatable credentials, is returned whenever
the token is malformed, tampered, or signed with the wrong secret or
algorithm, and this takes precedence over expiry; for a well-formed, intact,
correctly signed token carrying a numeric exp, verification fails with
TokenExpired exactly when now is strictly past exp and otherwise succeeds
with the decoded claim set (a token without exp also succeeds); the subject
check happens only after successful decoding, in identity resolution, where a
missing sub claim is surfaced as 401 with an invalid-credentials detail. -/
theorem c8_amended (t : Jwt) (secret alg : String) (now : ℤ)
    (store : ClaimValue → Option UserRow) :
    (¬ (t.wellFormed = true ∧ t.intact = true ∧ t.signedWith = secret ∧
        t.alg = alg) →
      decode_token t secret alg now =
        .error { status_code := 401, detail := "Could not validate credentials",
                 wwwAuthenticate := some "Bearer" }) ∧
    (t.wellFormed = true → t.intact = true → t.signedWith = secret →
      t.alg = alg → ∀ e : ℤ, t.payload "exp" = some (.num e) →
      (e < now → decode_token t secret alg now =
        .error { status_code := 401, detail := "Token has expired",
                 wwwAuthenticate := some "Bearer" }) ∧
      (now ≤ e → decode_token t secret alg now = .ok t.payload)) ∧
    (t.wellFormed = true → t.intact = true → t.signedWith = secret →
      t.alg = alg → t.payload "exp" = none →
      decode_token t secret alg now = .ok t.payload) ∧
    (decode_token t secret alg now = .ok t.payload → t.payload "sub" = none →
      get_current_user t secret alg now store =
        .error { status_code := 401, detail := "Invalid authentication credentials",
                 wwwAuthenticate := some "Bearer" }) := by
  refine ⟨?_, ?_, ?_, ?_⟩
  · intro h
    by_cases h1 : t.wellFormed = true
    · by_cases h2 : t.intact = true
      · by_cases h3 : t.signedWith = secret
        · by_cases h4 : t.alg = alg
          · exact absurd ⟨h1, h2, h3, h4⟩ h
          · simp [decode_token, jwt_decode, h1, h2, h3, h4]
        · simp [decode_token, jwt_decode, h1, h2, h3]
      · have h2' : t.intact = false := by simpa using h2
        simp [decode_token, jwt_decode, h1, h2']
    · have h1' : t.wellFormed = false := by simpa using h1
      simp [decode_token, jwt_decode, h1']
  · intro h1 h2 h3 h4 e he
    constructor
    · intro hlt
      simp [decode_token, jwt_decode, h1, h2, h3, h4, he, hlt]
    · intro hge
      have hnot : ¬ e < now := not_lt.mpr hge
      simp [decode_token, jwt_decode, h1, h2, h3, h4, he, hnot]
  · intro h1 h2 h3 h4 he
    simp [decode_token, jwt_decode, h1, h2, h3, h4, he]
  · intro hdec hsub
    simp [get_current_user, hdec, hsub]

/-- C8 witness: a well-signed unexpired token with exp 100 checked at clock 0
decodes successfully, and, carrying no sub claim, is rejected by identity
resolution with the invalid-credentials detail. -/
theorem c8_witness :
    (goodJwt.wellFormed = true ∧ goodJwt.intact = true ∧
      goodJwt.signedWith = "s" ∧ goodJwt.alg = "HS256" ∧
      goodJwt.payload "exp" = some (.num 100) ∧ (0 : ℤ) ≤ 100 ∧
      goodJwt.payload "sub" = none) ∧
    decode_token goodJwt "s" "HS256" 0 = .ok goodJwt.payload ∧
    get_current_user goodJwt "s" "HS256" 0 (fun _ => none) =
      .error { status_code := 401, detail := "Invalid authentication credentials",
               wwwAuthenticate := some "Bearer" } :=
  ⟨⟨rfl, rfl, rfl, rfl, rfl, by decide, rfl⟩,
    ((c8_amended goodJwt "s" "HS256" 0 (fun _ => none)).2.1 rfl rfl rfl rfl 100
      rfl).2 (by decide),
    (c8_amended goodJwt "s" "HS256" 0 (fun _ => none)).2.2.2
      (((c8_amended goodJwt "s" "HS256" 0 (fun _ => none)).2.1 rfl rfl rfl rfl 100
        rfl).2 (by decide)) rfl⟩

/-- C5 counterexample: the claim that a deleted-caller failure and an
invalid-token failure are client-visibly identical is false.  Both are 401
with WWW-Authenticate Bearer, but the detail texts differ - the deleted
caller leaks the distinct detail of a missing user record. -/
theorem c5_counterexample :
    errStatus (get_current_user
        (create_access_token (emptyClaims.set "sub" (.str "user-1")) none 60
          "s" "HS256" 0) "s" "HS256" 0 (fun _ => none)) = some 401 ∧
    errStatus (get_current_user badJwt "s" "HS256" 0 (fun _ => none)) = some 401 ∧
    errWWWAuth (get_current_user
        (create_access_token (emptyClaims.set "sub" (.str "user-1")) none 60
          "s" "HS256" 0) "s" "HS256" 0 (fun _ => none)) = some (some "Bearer") ∧
    errWWWAuth (get_current_user badJwt "s" "HS256" 0 (fun _ => none)) =
      some (some "Bearer") ∧
    errDetail (get_current_user
        (create_access_token (emptyClaims.set "sub" (.str "user-1")) none 60
          "s" "HS256" 0) "s" "HS256" 0 (fun _ => none)) = some "User not found" ∧
    errDetail (get_current_user badJwt "s" "HS256" 0 (fun _ => none)) =
      some "Could not validate credentials" ∧
    ("User not found" : String) ≠ "Could not validate credentials" := by
  refine ⟨by decide, by decide, by decide, by decide, by decide, by decide, by decide⟩

/-- C5 amended: a validly signed fresh token whose subject has no record in
the store and a tampered token both fail identity resolution with status 401
and the WWW-Authenticate Bearer header, but with different detail texts: a
missing user record versus unvalidatable credentials, so the two cases are
distinguishable by the client. -/
theorem c5_amended (data : ClaimSet) (uid : ClaimValue) (secret alg : String)
    (m now : ℤ) (store : ClaimValue → Option UserRow) (bad : Jwt)
    (hm : 0 ≤ m) (hsub : data "sub" = some uid) (hstore : store uid = none)
    (hbad : bad.intact = false) :
    get_current_user (create_access_token data none m secret alg now) secret alg
        now store =
      .error { status_code := 401, detail := "User not found",
               wwwAuthenticate := some "Bearer" } ∧
    get_current_user bad secret alg now store =
      .error { status_code := 401, detail := "Could not validate credentials",
               wwwAuthenticate := some "Bearer" } := by
  constructor
  · have hdec := decode_token_create data none m secret alg now
    have hnot : ¬ now + (none : Option ℤ).getD (m * 60) < now := by
      simp only [Option.getD]
      omega
    rw [if_neg hnot] at hdec
    have hsub' : ((((data.set "exp" (.num (now + m * 60))).set
        "iat" (.num now)).set "type" (.str "access")) : ClaimSet) "sub" = some uid := by
      rw [ClaimSet.set_other _ _ _ _ (by decide), ClaimSet.set_other _ _ _ _ (by decide),
        ClaimSet.set_other _ _ _ _ (by decide), hsub]
    simp [get_current_user, hdec, hsub', hstore]
  · cases hwf : bad.wellFormed
    · simp [get_current_user, decode_token, jwt_decode, hwf]
    · simp [get_current_user, decode_token, jwt_decode, hwf, hbad]

/-- C5 witness: subject u-1 with an empty store against a tampered token. -/
theorem c5_witness :
    ((0 : ℤ) ≤ 60 ∧
      (emptyClaims.set "sub" (.str "user-1")) "sub" = some (.str "user-1") ∧
      ((fun _ => none : ClaimValue → Option UserRow) (.str "user-1")) = none ∧
      badJwt.intact = false) ∧
    get_current_user
        (create_access_token (emptyClaims.set "sub" (.str "user-1")) none 60
          "s" "HS256" 0) "s" "HS256" 0 (fun _ => none) =
      .error { status_code := 401, detail := "User not found",
               wwwAuthenticate := some "Bearer" } ∧
    get_current_user badJwt "s" "HS256" 0 (fun _ => none) =
      .error { status_code := 401, detail := "Could not validate credentials",
               wwwAuthenticate := some "Bearer" } :=
  ⟨⟨by decide, rfl, rfl, rfl⟩,
    (c5_amended (emptyClaims.set "sub" (.str "user-1")) (.str "user-1") "s" "HS256"
      60 0 (fun _ => none) badJwt (by decide) rfl rfl rfl).1,
    (c5_amended (emptyClaims.set "sub" (.str "user-1")) (.str "user-1") "s" "HS256"
      60 0 (fun _ => none) badJwt (by decide) rfl rfl rfl).2⟩

/-- C10: on every successful login the response reports the constant
expires_in of 3600 seconds, for every configured access-token lifetime of m
minutes, while the issued access token actually expires at now plus m times
60 seconds; the reported value matches the real lifetime exactly when the
configured lifetime is 60 minutes. -/
theorem c10_expires_in_hardcoded (req : LoginRequest)
    (users : String → Option DbUser) (vp : String → String → Bool)
    (m rd : ℤ) (secret alg : String) (now : ℤ) (u : DbUser)
    (hu : users req.username = some u)
    (hp : vp req.password u.password_hash = true) :
    ∃ r : TokenResponse,
      login req users vp m rd secret alg now = .ok r ∧
      r.expires_in = 3600 ∧
      r.access_token.payload "exp" = some (.num (now + m * 60)) ∧
      ((3600 : ℤ) = m * 60 ↔ m = 60) := by
  have hlogin : login req users vp m rd secret alg now = .ok
      { access_token := create_access_token
          (((emptyClaims.set "sub" (.str u.user_id)).set "username"
            (.str u.username)).set "role" (.str u.role)) none m secret alg now,
        refresh_token := create_refresh_token
          (emptyClaims.set "sub" (.str u.user_id)) none rd secret alg now,
        token_type := "bearer", expires_in := 60 * 60 } := by
    unfold login
    rw [hu]
    simp [hp]
  refine ⟨_, hlogin, by norm_num, ?_, ?_⟩
  · show (create_access_token
        (((emptyClaims.set "sub" (.str u.user_id)).set "username"
          (.str u.username)).set "role" (.str u.role)) none m secret alg
        now).payload "exp" = _
    unfold create_access_token jwt_encode
    simp only []
    rw [ClaimSet.set_other _ _ _ _ (by decide), ClaimSet.set_other _ _ _ _ (by decide),
      ClaimSet.set_same]
    simp
  · constructor
    · intro h
      omega
    · intro h
      rw [h]
      norm_num

/-- C10 witness: alice logs in with a configured lifetime of 30 minutes - the
response still reports 3600 while the token expires 1800 seconds after issue,
and 30 is not 60. -/
theorem c10_witness :
    (aliceStore "alice" = some aliceUser ∧
      alwaysVerify "pw" aliceUser.password_hash = true) ∧
    (∃ r : TokenResponse,
      login { username := "alice", password := "pw" } aliceStore alwaysVerify
          30 7 "s" "HS256" 0 = .ok r ∧
      r.expires_in = 3600 ∧
      r.access_token.payload "exp" = some (.num ((0 : ℤ) + 30 * 60)) ∧
      ((3600 : ℤ) = 30 * 60 ↔ (30 : ℤ) = 60)) :=
  ⟨⟨rfl, rfl⟩,
    c10_expires_in_hardcoded { username := "alice", password := "pw" } aliceStore
      alwaysVerify 30 7 "s" "HS256" 0 aliceUser rfl rfl⟩

end AetherLens
